import Mathlib

/-!
Verification of the `regensburg_transport` Home Assistant sensor platform
(`homeassistant/components/regensburg_transport/sensor.py`).

The development shallowly embeds the departure-fetching pipeline of
`TransportSensor`: request construction, the outcome classification of the
HTTP exchange, JSON extraction of `stopEvents`, conversion to `StopEvent`
values, the stable sort by planned time, the `next_departure` selector, the
`extra_state_attributes` rendering and the `walking_time` configuration
default. Effects are made explicit: logging becomes a list of emitted log
entries, and Python exceptions that the code lets escape become the `error`
case of an `Except` result.
-/

namespace RegensburgTransport

/-- Log severities used by the sensor module (`_LOGGER.debug`,
`_LOGGER.warning`, `_LOGGER.error`). -/
inductive LogLevel where
  | debug
  | warning
  | error
deriving DecidableEq, Repr

/-- One emitted log record: severity and rendered message. -/
def LogEntry := LogLevel × String

/-- Modelled from the spec: `stopEvent.py` (the `StopEvent` value object) is
not under `src/`; the spec describes it as an immutable value object with a
`planned` timestamp (total order, always present), an optional `estimated`
timestamp, a line identifier, a direction string and an icon string.
Timestamps are modelled as `Nat`. -/
structure StopEvent where
  planned : Nat
  estimated : Option Nat
  transportation_line : String
  direction : String
  icon : String
deriving DecidableEq, Repr

/-- Modelled from the spec: one raw departure record of the API payload's
`stopEvents` array, carrying the fields that `StopEvent.from_dict` reads
(planned time, estimated time, line, direction, and the icon derived from
the transport type). The spec treats the parsing collaborator as trivial
field-level translation, so the raw record is modelled by its parsed
field content. -/
structure RawDeparture where
  planned : Nat
  estimated : Option Nat
  transportation_line : String
  direction : String
  icon : String
deriving DecidableEq, Repr

/-- Modelled from the spec: `StopEvent.from_dict(raw) -> StopEvent` is
"field-level translation, assumed correct and out of scope"; it maps each
raw record's fields across. -/
def StopEvent.from_dict (raw : RawDeparture) : StopEvent :=
  { planned := raw.planned
    estimated := raw.estimated
    transportation_line := raw.transportation_line
    direction := raw.direction
    icon := raw.icon }

/-- Modelled from the spec: `to_dict(event) -> mapping` is field-level
translation back to a string mapping. -/
def StopEvent.to_dict (e : StopEvent) : List (String × String) :=
  [("planned", toString e.planned),
   ("estimated", match e.estimated with | some t => toString t | none => ""),
   ("transportation_line", e.transportation_line),
   ("direction", e.direction),
   ("icon", e.icon)]

/-- The body obtained from a response whose status check succeeded:
either `response.json()` raises (invalid JSON), or it yields a JSON object
whose `stopEvents` field is absent (`.get` returns `None`) or a list of raw
departure records. -/
inductive ResponseBody where
  | invalidJson (msg : String)
  | json (stopEvents : Option (List RawDeparture))

/-- Outcome of the `requests.get` call plus `response.raise_for_status()`:
an HTTP status error (`requests.exceptions.HTTPError`), a timeout
(`requests.exceptions.Timeout`), a connection-level failure
(`requests.exceptions.ConnectionError`, which is neither an `HTTPError` nor
a `Timeout`), or a response whose status check passed, carrying its body
and its text. -/
inductive HttpOutcome where
  | httpError (msg : String)
  | timeout (msg : String)
  | connectionError (msg : String)
  | success (body : ResponseBody) (text : String)

/-- A Python exception escaping `fetch_departures`: an uncaught
`requests.exceptions.ConnectionError`, or the `TypeError` raised by
iterating over `None` in the list comprehension. -/
inductive PyException where
  | connectionError (msg : String)
  | typeError (msg : String)
deriving DecidableEq, Repr

/-- The HTTP request issued by `fetch_departures`. -/
structure HttpRequest where
  url : String
  params : List (String × String)
  timeout : Nat
deriving DecidableEq, Repr

/-- The request `fetch_departures` builds for a sensor configured with
`stop_id`. The code passes a literal params dict: `name_dm` is the constant
string "de:09362:12009", and `self.stop_id` is not used. -/
def fetch_request (_stop_id : Int) : HttpRequest :=
  { url := "https://efa.rvv.de/efa/XML_DM_REQUEST"
    params := [("mode", "direct"),
               ("outputFormat", "rapidJSON"),
               ("type_dm", "any"),
               ("useRealtime", "1"),
               ("name_dm", "de:09362:12009")]
    timeout := 30 }

/-- The comparison `sorted(unsorted, key=lambda d: d.planned)` sorts by:
non-decreasing `planned`. -/
def plannedLE (a b : StopEvent) : Bool :=
  decide (a.planned ≤ b.planned)

/-- `TransportSensor.fetch_departures`, embedded over the outcome of the
HTTP exchange. Returns the emitted log entries and either the resulting
list of `StopEvent`s or the Python exception that escapes:
  * `HTTPError` → one warning "API error", return `[]`;
  * `Timeout` → one warning "API timeout", return `[]`;
  * `ConnectionError` → uncaught, propagates;
  * success → one debug entry, then:
      `response.json()` invalid → one error "API invalid JSON", return `[]`;
      `stopEvents` absent → `.get` yields `None` and the comprehension
        raises `TypeError`, uncaught;
      `stopEvents` present → map `StopEvent.from_dict` over the records and
        return them sorted (stably) by `planned`.
Python's `sorted` is a stable non-decreasing sort by the key, modelled by
`List.mergeSort` with `plannedLE`. -/
def fetch_departures (stop_id : Int) (outcome : HttpOutcome) :
    List LogEntry × Except PyException (List StopEvent) :=
  match outcome with
  | .httpError ex => ([(.warning, "API error: " ++ ex)], .ok [])
  | .timeout ex => ([(.warning, "API timeout: " ++ ex)], .ok [])
  | .connectionError ex => ([], .error (.connectionError ex))
  | .success body text =>
    let dbg : LogEntry :=
      (.debug, "OK: departures for " ++ toString stop_id ++ ": " ++ text)
    match body with
    | .invalidJson ex =>
        ([dbg, (.error, "API invalid JSON: " ++ ex)], .ok [])
    | .json none =>
        ([dbg], .error (.typeError "argument of type NoneType is not iterable"))
    | .json (some stopEvents) =>
        let unsorted := stopEvents.map StopEvent.from_dict
        ([dbg], .ok (unsorted.mergeSort plannedLE))

/-- `TransportSensor.next_departure`: the first stop event if the list is
non-empty, else `None`. -/
def next_departure (stop_events : List StopEvent) : Option StopEvent :=
  match stop_events with
  | [] => none
  | e :: _ => some e

/-- The class-level default of `TransportSensor.stop_events`, the value a
sensor exposes before any update has run: the empty list. -/
def initial_stop_events : List StopEvent := []

/-- `TransportSensor.extra_state_attributes`: the value of the
"departures" attribute, `[event.to_dict() for event in self.stop_events or []]`. -/
def extra_state_attributes (stop_events : List StopEvent) :
    List (List (String × String)) :=
  stop_events.map StopEvent.to_dict

/-- The `walking_time` entry of the sensor's configuration dict: the key may
be absent (`config.get` returns `None`), explicitly `None`, or an integer. -/
inductive WalkingTimeConfig where
  | absent
  | nullValue
  | intValue (v : Int)
deriving DecidableEq, Repr

/-- `TransportSensor.__init__`'s
`self.walking_time = config.get(CONF_DEPARTURES_WALKING_TIME) or 1`:
Python's `or` replaces a falsy left operand (`None`, or the integer `0`)
with `1` and keeps any other integer. -/
def walking_time (c : WalkingTimeConfig) : Int :=
  match c with
  | .absent => 1
  | .nullValue => 1
  | .intValue v => if v = 0 then 1 else v

/-- Count the log entries of a given severity. -/
def countLevel (lvl : LogLevel) (logs : List LogEntry) : Nat :=
  logs.countP (fun e => decide (e.1 = lvl))

/-- Sample departure used by witnesses. -/
def sampleA : StopEvent :=
  { planned := 10, estimated := none, transportation_line := "1",
    direction := "Klinikum", icon := "mdi:bus" }

/-- Second sample departure used by witnesses. -/
def sampleB : StopEvent :=
  { planned := 20, estimated := some 25, transportation_line := "4",
    direction := "Burgweinting", icon := "mdi:bus" }

theorem plannedLE_trans :
    ∀ a b c : StopEvent, plannedLE a b → plannedLE b c → plannedLE a c := by
  intro a b c hab hbc
  simp only [plannedLE, decide_eq_true_eq] at *
  exact le_trans hab hbc

theorem plannedLE_total : ∀ a b : StopEvent, plannedLE a b || plannedLE b a := by
  intro a b
  simp only [plannedLE, Bool.or_eq_true, decide_eq_true_eq]
  exact Nat.le_total a.planned b.planned

/-- Stability of `mergeSort`, filter form: a stable sort does not reorder
the elements that a sort-key-constant predicate selects. -/
theorem filter_mergeSort_of_key {α : Type} (le : α → α → Bool) (p : α → Bool)
    (trans : ∀ a b c, le a b → le b c → le a c)
    (total : ∀ a b, le a b || le b a)
    (hp : ∀ a b, p a → p b → le a b) (l : List α) :
    (l.mergeSort le).filter p = l.filter p := by
  have hsub : List.Sublist (l.filter p) l := List.filter_sublist l
  have hpair : (l.filter p).Pairwise (fun a b => le a b) :=
    List.pairwise_of_forall_mem_list (fun a ha b hb =>
      hp a b (List.of_mem_filter ha) (List.of_mem_filter hb))
  have h1 : List.Sublist (l.filter p) (l.mergeSort le) :=
    List.sublist_mergeSort trans total hpair hsub
  have h2 : List.Sublist ((l.filter p).filter p) ((l.mergeSort le).filter p) :=
    h1.filter p
  have hself : (l.filter p).filter p = l.filter p :=
    List.filter_eq_self.mpr (fun a ha => List.of_mem_filter ha)
  rw [hself] at h2
  have hlen : ((l.mergeSort le).filter p).length = (l.filter p).length :=
    ((List.mergeSort_perm l le).filter p).length_eq
  exact (h2.eq_of_length hlen.symm).symm

end RegensburgTransport

namespace RegensburgTransport

/-- C1: the claim says the outbound GET carries `mode=direct`,
`outputFormat=rapidJSON`, `type_dm=any`, `useRealtime=1` and `name_dm` set
to the configured stop identifier, with a 30-second timeout. The code does
send those four fixed parameters with a 30-second timeout, but hardcodes
`name_dm` to the literal "de:09362:12009": for a sensor configured with
stop id 12345 the request still names stop "de:09362:12009", which is not
the configured identifier. -/
theorem C1_name_dm_hardcoded :
    (fetch_request 12345).url = "https://efa.rvv.de/efa/XML_DM_REQUEST" ∧
    (fetch_request 12345).params =
      [("mode", "direct"), ("outputFormat", "rapidJSON"), ("type_dm", "any"),
       ("useRealtime", "1"), ("name_dm", "de:09362:12009")] ∧
    (fetch_request 12345).timeout = 30 ∧
    "de:09362:12009" ≠ toString (12345 : Int) := by
  refine ⟨rfl, rfl, rfl, ?_⟩
  decide

/-- C2 counterexample: a connection-level failure of `requests.get` is
neither an `HTTPError` nor a `Timeout`, so `fetch_departures` does not
catch it and the caller observes the exception. -/
theorem C2_counterexample :
    (fetch_departures 1 (.connectionError "connection refused")).2 =
      .error (.connectionError "connection refused") := rfl

/-- C2 amended: HTTP status errors, timeouts and invalid-JSON bodies are
absorbed at the fetch boundary (empty list returned, no exception), but a
connection error and a successful JSON response without a `stopEvents`
field both let an exception propagate to the caller. -/
theorem C2_amended (stop_id : Int) (msg text : String) :
    (fetch_departures stop_id (.httpError msg)).2 = .ok [] ∧
    (fetch_departures stop_id (.timeout msg)).2 = .ok [] ∧
    (fetch_departures stop_id (.success (.invalidJson msg) text)).2 = .ok [] ∧
    (fetch_departures stop_id (.connectionError msg)).2 =
      .error (.connectionError msg) ∧
    (fetch_departures stop_id (.success (.json none) text)).2 =
      .error (.typeError "argument of type NoneType is not iterable") :=
  ⟨rfl, rfl, rfl, rfl, rfl⟩

/-- C3: for a successful response whose `stopEvents` array holds N raw
records, `fetch_departures` returns exactly N `StopEvent` values, sorted
non-decreasing by their planned timestamp. -/
theorem C3_fetch_count_sorted (stop_id : Int) (text : String)
    (stopEvents : List RawDeparture) :
    ∃ l, (fetch_departures stop_id
        (.success (.json (some stopEvents)) text)).2 = .ok l ∧
      l.length = stopEvents.length ∧
      l.Pairwise (fun a b => a.planned ≤ b.planned) := by
  refine ⟨(stopEvents.map StopEvent.from_dict).mergeSort plannedLE, rfl, ?_, ?_⟩
  · rw [List.length_mergeSort, List.length_map]
  · have h := List.sorted_mergeSort plannedLE_trans plannedLE_total
      (stopEvents.map StopEvent.from_dict)
    exact h.imp (fun hab => by
      simpa [plannedLE, decide_eq_true_eq] using hab)

/-- C4 counterexample: when the JSON object lacks `stopEvents`, `.get`
returns `None`, the list comprehension raises `TypeError`, and the
exception propagates — `fetch_departures` does not return an empty list. -/
theorem C4_counterexample :
    (fetch_departures 1 (.success (.json none) "ok body")).2 =
      .error (.typeError "argument of type NoneType is not iterable") := rfl

/-- C4 amended: on a successful JSON response without a `stopEvents` field,
`fetch_departures` raises an uncaught `TypeError` (the parse exception
propagates) instead of treating the field as an empty list. -/
theorem C4_amended (stop_id : Int) (text : String) :
    (fetch_departures stop_id (.success (.json none) text)).2 =
      .error (.typeError "argument of type NoneType is not iterable") := rfl

/-- C5: on an HTTP error-status response and likewise on a timeout,
`fetch_departures` returns the empty list, emits exactly one warning-level
log entry, and no exception escapes. -/
theorem C5_http_error_timeout (stop_id : Int) (msg : String) :
    ((fetch_departures stop_id (.httpError msg)).2 = .ok [] ∧
      countLevel .warning (fetch_departures stop_id (.httpError msg)).1 = 1) ∧
    ((fetch_departures stop_id (.timeout msg)).2 = .ok [] ∧
      countLevel .warning (fetch_departures stop_id (.timeout msg)).1 = 1) :=
  ⟨⟨rfl, rfl⟩, ⟨rfl, rfl⟩⟩

/-- C6: on a response body that is not valid JSON, `fetch_departures`
returns the empty list and emits exactly one error-level log entry. -/
theorem C6_invalid_json (stop_id : Int) (msg text : String) :
    (fetch_departures stop_id (.success (.invalidJson msg) text)).2 = .ok [] ∧
    countLevel .error
      (fetch_departures stop_id (.success (.invalidJson msg) text)).1 = 1 :=
  ⟨rfl, rfl⟩

/-- C7: the sort performed by `fetch_departures` is stable: the records
with any given planned value appear in the output in exactly the order
they had in the input `stopEvents` array (mapped through `from_dict`). -/
theorem C7_sort_stable (stop_id : Int) (text : String)
    (stopEvents : List RawDeparture) (t : Nat) :
    ∃ l, (fetch_departures stop_id
        (.success (.json (some stopEvents)) text)).2 = .ok l ∧
      l.filter (fun e => decide (e.planned = t)) =
        (stopEvents.map StopEvent.from_dict).filter
          (fun e => decide (e.planned = t)) := by
  refine ⟨_, rfl, ?_⟩
  exact filter_mergeSort_of_key plannedLE _ plannedLE_trans plannedLE_total
    (fun a b ha hb => by
      simp only [decide_eq_true_eq] at ha hb
      simp [plannedLE, ha, hb]) _

/-- C8: `next_departure` is a pure total function: on the empty list it
returns `none`, and on a non-empty list sorted by planned time it returns
the first element, which has the least planned timestamp. -/
theorem C8_next_departure (e : StopEvent) (rest : List StopEvent)
    (hs : (e :: rest).Pairwise (fun a b => a.planned ≤ b.planned)) :
    next_departure [] = none ∧
    next_departure (e :: rest) = some e ∧
    ∀ x ∈ e :: rest, e.planned ≤ x.planned := by
  refine ⟨rfl, rfl, ?_⟩
  intro x hx
  rcases List.mem_cons.mp hx with h | h
  · exact h ▸ le_refl _
  · exact List.rel_of_pairwise_cons hs h

/-- C8 witness: the theorem at the concrete sorted list `[sampleA, sampleB]`. -/
theorem C8_next_departure_witness :
    ([sampleA, sampleB].Pairwise (fun a b => a.planned ≤ b.planned)) ∧
    (next_departure [] = none ∧
      next_departure [sampleA, sampleB] = some sampleA ∧
      ∀ x ∈ [sampleA, sampleB], sampleA.planned ≤ x.planned) :=
  ⟨by decide, C8_next_departure sampleA [sampleB] (by decide)⟩

/-- C9 counterexample: before any update runs, `stop_events` is the
class-level default — the empty list itself, not an absent/None value —
so every observable (the "departures" attribute, the next-departure
selector) coincides with that of an empty fetch result. -/
theorem C9_counterexample :
    initial_stop_events = ([] : List StopEvent) ∧
    extra_state_attributes initial_stop_events = extra_state_attributes [] ∧
    next_departure initial_stop_events = next_departure [] :=
  ⟨rfl, rfl, rfl⟩

/-- C9 amended: a sensor on which no update has yet run exposes the empty
departure list (the class default), observably identical to the state after
a failed or departure-free fetch: the "departures" attribute is empty and
`next_departure` is `none` in both. -/
theorem C9_amended :
    initial_stop_events = ([] : List StopEvent) ∧
    extra_state_attributes initial_stop_events = [] ∧
    next_departure initial_stop_events = none :=
  ⟨rfl, rfl, rfl⟩

/-- C10: a walking-time configuration that is absent, `None` or `0` yields
`walking_time = 1`; a configured positive value is kept as given. -/
theorem C10_walking_time_default (v : Int) (hv : 0 < v) :
    walking_time .absent = 1 ∧
    walking_time .nullValue = 1 ∧
    walking_time (.intValue 0) = 1 ∧
    walking_time (.intValue v) = v := by
  refine ⟨rfl, rfl, rfl, ?_⟩
  show (if v = 0 then 1 else v) = v
  rw [if_neg (by omega)]

/-- C10 witness: the theorem at the concrete positive value 5. -/
theorem C10_walking_time_default_witness :
    (0 : Int) < 5 ∧
    (walking_time .absent = 1 ∧
      walking_time .nullValue = 1 ∧
      walking_time (.intValue 0) = 1 ∧
      walking_time (.intValue 5) = 5) :=
  ⟨by decide, C10_walking_time_default 5 (by decide)⟩

end RegensburgTransport
